import Mathlib

/-!
Shallow embedding of the contract-comparison pipeline
(`src/models.py`, `src/main.py`, `src/image_parser.py`,
`src/agents/contextualization_agent.py`, `src/agents/extraction_agent.py`).

External collaborators (the hosted vision/text model, the standard-library
JSON parser, the observability sink) are modelled as parameters of the
embedding; everything else is translated directly from the Python source.
-/

namespace ContractPipeline

/-- Models Python `str.isspace` for a single character: the set of code
points Python strips in `str.strip()`. -/
def pyIsSpace (c : Char) : Bool :=
  c.val = 9 || c.val = 10 || c.val = 11 || c.val = 12 || c.val = 13 ||
  (28 ≤ c.val && c.val ≤ 32) || c.val = 133 || c.val = 160 ||
  c.val = 0x1680 || (0x2000 ≤ c.val && c.val ≤ 0x200a) ||
  c.val = 0x2028 || c.val = 0x2029 || c.val = 0x202f || c.val = 0x205f ||
  c.val = 0x3000

/-- Models Python `s.strip()`: drop leading and trailing whitespace. -/
def pyStrip (s : String) : String :=
  String.mk (((s.data.dropWhile pyIsSpace).reverse.dropWhile pyIsSpace).reverse)

/-- JSON values as produced by Python `json.loads`. An object is the
key-value list in insertion order; Python dict lookup keeps the last
binding of a duplicated key. -/
inductive JValue where
  | jnull
  | jbool (b : Bool)
  | jnum (n : Int)
  | jstr (s : String)
  | jarr (xs : List JValue)
  | jobj (fields : List (String × JValue))

/-- Python dict lookup over a key-value list (later duplicate wins). -/
def dlookup (kvs : List (String × JValue)) (k : String) : Option JValue :=
  match kvs.reverse.find? (fun kv => kv.1 == k) with
  | some kv => some kv.2
  | none => none

/-- One pydantic validation error: the offending field and the violated
rule, as collected into a `ValidationError`. -/
structure FieldErr where
  field : String
  msg : String
  deriving Repr, DecidableEq

/-- The validated output model `ContractChangeOutput` of `src/models.py`. -/
structure ContractChangeOutput where
  sections_changed : List String
  topics_touched : List String
  summary_of_the_change : String
  deriving Repr, DecidableEq

/-- Interpret a JSON array as a `List[str]`; pydantic v2 rejects
non-string elements of a `List[str]` field. -/
def asStrings : List JValue → Option (List String)
  | [] => some []
  | JValue.jstr s :: rest => (asStrings rest).map (fun ss => s :: ss)
  | _ => none

/-- Validation of one `List[str]` field of `ContractChangeOutput`:
`Field(..., min_length=1)` followed by the field validator that rejects
whitespace-only elements and strips the rest. -/
def checkList (fieldName elemMsg : String) (v : Option JValue) :
    Except FieldErr (List String) :=
  match v with
  | none => Except.error ⟨fieldName, "Field required"⟩
  | some (JValue.jarr xs) =>
    match asStrings xs with
    | none => Except.error ⟨fieldName, "Input should be a valid string"⟩
    | some ss =>
      if ss.length < 1 then
        Except.error ⟨fieldName, "List should have at least 1 item after validation, not 0"⟩
      else if ss.any (fun s => pyStrip s == "") then
        Except.error ⟨fieldName, elemMsg⟩
      else
        Except.ok (ss.map pyStrip)
  | some _ => Except.error ⟨fieldName, "Input should be a valid list"⟩

/-- Validation of `summary_of_the_change`: `Field(..., min_length=50)` on
the raw string, then the field validator requiring 50 characters after
stripping, returning the stripped string. -/
def checkSummary (v : Option JValue) : Except FieldErr String :=
  match v with
  | none => Except.error ⟨"summary_of_the_change", "Field required"⟩
  | some (JValue.jstr s) =>
    if s.length < 50 then
      Except.error ⟨"summary_of_the_change", "String should have at least 50 characters"⟩
    else if (pyStrip s).length < 50 then
      Except.error ⟨"summary_of_the_change", "summary_of_the_change must be at least 50 characters long"⟩
    else
      Except.ok (pyStrip s)
  | some _ => Except.error ⟨"summary_of_the_change", "Input should be a valid string"⟩

/-- Errors of a single field check, as collected by pydantic. -/
def errsOf {α : Type} : Except FieldErr α → List FieldErr
  | Except.error e => [e]
  | Except.ok _ => []

/-- Construction `ContractChangeOutput(**kwargs)`: pydantic validates each
declared field, collects all field errors, and ignores extra keys
(the default `extra="ignore"` configuration); construction succeeds only
when every field validates. -/
def validate (kwargs : List (String × JValue)) :
    Except (List FieldErr) ContractChangeOutput :=
  let r1 := checkList "sections_changed" "Each section name must be non-empty"
    (dlookup kwargs "sections_changed")
  let r2 := checkList "topics_touched" "Each topic must be non-empty"
    (dlookup kwargs "topics_touched")
  let r3 := checkSummary (dlookup kwargs "summary_of_the_change")
  match r1, r2, r3 with
  | Except.ok a, Except.ok b, Except.ok c => Except.ok ⟨a, b, c⟩
  | _, _, _ => Except.error (errsOf r1 ++ errsOf r2 ++ errsOf r3)

/-- Python exceptions that cross the stage boundaries. `apiError` models
an exception raised by the external OpenAI client; `runtimeError` carries
the `raise RuntimeError(...) from e` cause chain. -/
inductive PyErr where
  | apiError (msg : String)
  | valueError (msg : String)
  | runtimeError (msg : String) (cause : PyErr)
  deriving Repr, DecidableEq

/-- Python `str(e)` on the exceptions above. -/
def errStr : PyErr → String
  | PyErr.apiError m => m
  | PyErr.valueError m => m
  | PyErr.runtimeError m _ => m

/-- Rendering of a pydantic `ValidationError` into `str(e)`. -/
def renderErrs (errs : List FieldErr) : String :=
  String.intercalate "; " (errs.map (fun e => e.field ++ ": " ++ e.msg))

/-- Observable actions of one run: calls to the external collaborators,
invocation of the pydantic validator, and emissions to the observability
sink. -/
inductive Event where
  | visionCall (docType : String)
  | ctxCall
  | extractCall
  | validatorCall
  | traceEmit (name : String)
  | scoreEmit (name : String) (value : Nat)
  deriving Repr, DecidableEq

/-- An observability emission: reaches the sink only when it is
available; `DummyTrace` turns it into a no-op. -/
def emit (sink : Bool) (e : Event) : List Event :=
  if sink then [e] else []

/-- Token usage accounting copied from the collaborator response. -/
structure Usage where
  prompt_tokens : Nat
  completion_tokens : Nat
  total_tokens : Nat
  deriving Repr, DecidableEq

/-- The dictionary returned by `ContextualizationAgent.analyze_documents`. -/
structure ContextualizationResult where
  analysis : String
  original_length : Nat
  amendment_length : Nat
  usage : Usage
  deriving Repr, DecidableEq

/-- The constant `ImageParser.SUPPORTED_FORMATS`. -/
def SUPPORTED_FORMATS : List String := [".jpg", ".jpeg", ".png", ".gif", ".webp"]

/-- The constant `ImageParser.MAX_FILE_SIZE` (10 MB). -/
def MAX_FILE_SIZE : Nat := 10 * 1024 * 1024

/-- Split a character list on a separator (the semantics of Python
`str.split` with an explicit separator). -/
def splitOnChar (sep : Char) : List Char → List (List Char)
  | [] => [[]]
  | c :: rest =>
    let r := splitOnChar sep rest
    if c == sep then [] :: r
    else
      match r with
      | [] => [[c]]
      | g :: gs => (c :: g) :: gs

/-- Models `pathlib.PurePath.name`: the final path component. -/
def pathName (p : String) : List Char :=
  ((splitOnChar '/' p.data).filter (fun s => s ≠ [] && s ≠ ['.'])).getLastD []

/-- Models `pathlib.PurePath.suffix`: the extension of the final component,
empty when the last dot is leading or trailing. -/
def pathSuffix (p : String) : String :=
  let n := pathName p
  match n.reverse.findIdx? (fun c => c == '.') with
  | none => ""
  | some j =>
    let i := n.length - 1 - j
    if 0 < i ∧ i < n.length - 1 then String.mk (n.drop i) else ""

/-- Python `str.lower()` on the ASCII range (extensions are ASCII). -/
def pyLower (s : String) : String :=
  String.mk (s.data.map Char.toLower)

/-- Translation of `ImageParser.validate_image`: existence, extension, size cap and
non-emptiness, checked in this order; `fs` models the filesystem as the
size of each existing file. Returns the error message, `none` if valid. -/
def validate_image (fs : String → Option Nat) (image_path : String) :
    Option String :=
  match fs image_path with
  | none => some ("Image file not found: " ++ image_path)
  | some file_size =>
    if (SUPPORTED_FORMATS.contains (pyLower (pathSuffix image_path))) = false then
      some ("Unsupported image format: " ++ pathSuffix image_path)
    else if MAX_FILE_SIZE < file_size then
      some ("Image file too large: " ++ toString file_size ++ " bytes")
    else if file_size = 0 then
      some "Image file is empty"
    else
      none

/-- Translation of `ImageParser.parse_image`: validate, then call the vision
collaborator; `visionResult` is the outcome of that external call.
Returns the extracted text or the raised exception, together with the
events of the call. -/
def parse_image (sink : Bool) (fs : String → Option Nat)
    (visionResult : Except String String) (image_path docType : String) :
    Except PyErr String × List Event :=
  match validate_image fs image_path with
  | some err =>
    (Except.error (PyErr.valueError ("Image validation failed: " ++ err)), [])
  | none =>
    let evs0 := emit sink (Event.traceEmit ("image_parsing_" ++ docType))
    match visionResult with
    | Except.error msg =>
      (Except.error (PyErr.runtimeError
          ("Failed to parse image " ++ image_path ++ ": " ++ msg)
          (PyErr.apiError msg)),
       evs0 ++ [Event.visionCall docType] ++ emit sink (Event.traceEmit "error"))
    | Except.ok text =>
      (Except.ok text,
       evs0 ++ [Event.visionCall docType]
         ++ emit sink (Event.traceEmit ("parse_" ++ docType ++ "_image"))
         ++ emit sink (Event.scoreEmit "extraction_quality" 1))

/-- Translation of `ContextualizationAgent.analyze_documents`: call the text
collaborator and return the analysis dictionary; the length metadata is
Python `len` of each input text. -/
def analyze_documents (sink : Bool) (collab : Except String (String × Usage))
    (original_text amendment_text : String) :
    Except PyErr ContextualizationResult × List Event :=
  let evs0 := emit sink (Event.traceEmit "agent_1_contextualization")
  match collab with
  | Except.error msg =>
    (Except.error (PyErr.runtimeError ("Contextualization agent failed: " ++ msg)
        (PyErr.apiError msg)),
     evs0 ++ [Event.ctxCall] ++ emit sink (Event.traceEmit "error"))
  | Except.ok (analysis, usage) =>
    (Except.ok ⟨analysis, original_text.length, amendment_text.length, usage⟩,
     evs0 ++ [Event.ctxCall]
       ++ emit sink (Event.traceEmit "contextualization_analysis")
       ++ emit sink (Event.scoreEmit "contextualization_quality" 1))

/-- Message of the `ValueError` raised on a JSON parse failure. -/
def jsonFailMsg (m : String) : String :=
  "Failed to parse agent output as JSON: " ++ m

/-- Message of the `ValueError` raised when pydantic rejects the data. -/
def pydanticFailMsg (m : String) : String :=
  "Pydantic validation failed: " ++ m

/-- Message of the `TypeError` raised by `**data` on a non-mapping. -/
def mappingTypeErrorMsg : String := "argument after ** must be a mapping"

/-- Translation of `ExtractionAgent.extract_changes`: call the structured-generation
collaborator, parse its text with the standard-library JSON parser
(`jsonParse` models `json.loads`), then construct `ContractChangeOutput`.
Every exception is re-raised as `RuntimeError("Extraction agent failed: ...")`
with the original exception as cause. -/
def extract_changes (jsonParse : String → Except String JValue) (sink : Bool)
    (collab : Except String (String × Usage)) (_ctx : ContextualizationResult) :
    Except PyErr ContractChangeOutput × List Event :=
  let evs0 := emit sink (Event.traceEmit "agent_2_extraction")
  match collab with
  | Except.error msg =>
    (Except.error (PyErr.runtimeError ("Extraction agent failed: " ++ msg)
        (PyErr.apiError msg)),
     evs0 ++ [Event.extractCall] ++ emit sink (Event.traceEmit "error"))
  | Except.ok (text, _usage) =>
    let evs1 := evs0 ++ [Event.extractCall]
      ++ emit sink (Event.traceEmit "change_extraction")
    match jsonParse text with
    | Except.error m =>
      (Except.error (PyErr.runtimeError
          ("Extraction agent failed: " ++ jsonFailMsg m)
          (PyErr.valueError (jsonFailMsg m))),
       evs1 ++ emit sink (Event.traceEmit "validation_error")
         ++ emit sink (Event.traceEmit "error"))
    | Except.ok (JValue.jobj kvs) =>
      match validate kvs with
      | Except.error errs =>
        (Except.error (PyErr.runtimeError
            ("Extraction agent failed: " ++ pydanticFailMsg (renderErrs errs))
            (PyErr.valueError (pydanticFailMsg (renderErrs errs)))),
         evs1 ++ [Event.validatorCall]
           ++ emit sink (Event.traceEmit "pydantic_validation_error")
           ++ emit sink (Event.traceEmit "error"))
      | Except.ok out =>
        (Except.ok out,
         evs1 ++ [Event.validatorCall]
           ++ emit sink (Event.traceEmit "validation")
           ++ emit sink (Event.scoreEmit "extraction_quality" 1))
    | Except.ok _ =>
      (Except.error (PyErr.runtimeError
          ("Extraction agent failed: " ++ pydanticFailMsg mappingTypeErrorMsg)
          (PyErr.valueError (pydanticFailMsg mappingTypeErrorMsg))),
       evs1 ++ emit sink (Event.traceEmit "pydantic_validation_error")
         ++ emit sink (Event.traceEmit "error"))

/-- Command-line arguments of `main` after ID generation. -/
structure Args where
  original_image : String
  amendment_image : String
  session_id : String
  contract_id : String
  deriving Repr, DecidableEq

/-- The outcomes of the external collaborator calls and the JSON parser,
fixed per run: the environment `main` executes in. -/
structure Env where
  fs : String → Option Nat
  visionOriginal : Except String String
  visionAmendment : Except String String
  ctxCollab : Except String (String × Usage)
  extrCollab : Except String (String × Usage)
  jsonParse : String → Except String JValue

/-- Result of one `main` invocation: the process exit code, the
serialized JSON payload on success, the exception caught on failure, and
the observable events in order. -/
structure RunResult where
  exitCode : Nat
  output : Option JValue
  err : Option PyErr
  events : List Event

/-- Assembly of the final payload in `main`: `model_dump()` of the
validated record, then `result["metadata"] = ...`. -/
def to_json (out : ContractChangeOutput) (args : Args) : JValue :=
  JValue.jobj [
    ("sections_changed", JValue.jarr (out.sections_changed.map JValue.jstr)),
    ("topics_touched", JValue.jarr (out.topics_touched.map JValue.jstr)),
    ("summary_of_the_change", JValue.jstr out.summary_of_the_change),
    ("metadata", JValue.jobj [
      ("session_id", JValue.jstr args.session_id),
      ("contract_id", JValue.jstr args.contract_id),
      ("original_image", JValue.jstr args.original_image),
      ("amendment_image", JValue.jstr args.amendment_image)])]

/-- Top-level keys of a JSON object. -/
def topKeys : JValue → List String
  | JValue.jobj kvs => kvs.map Prod.fst
  | _ => []

/-- Fields of a JSON object. -/
def jfields : JValue → List (String × JValue)
  | JValue.jobj kvs => kvs
  | _ => []

/-- Translation of `main` in `src/main.py`: parse both images, contextualize, extract,
attach metadata; any exception of a step aborts the run, is logged to the
trace and turns into exit code 1. -/
def runMain (sink : Bool) (env : Env) (args : Args) : RunResult :=
  let evs0 := emit sink (Event.traceEmit "contract_comparison_workflow")
  let failTrail := emit sink (Event.traceEmit "workflow_error")
    ++ emit sink (Event.scoreEmit "workflow_success" 0)
  match parse_image sink env.fs env.visionOriginal args.original_image "original" with
  | (Except.error e, ev1) => ⟨1, none, some e, evs0 ++ ev1 ++ failTrail⟩
  | (Except.ok original_text, ev1) =>
    match parse_image sink env.fs env.visionAmendment args.amendment_image "amendment" with
    | (Except.error e, ev2) => ⟨1, none, some e, evs0 ++ ev1 ++ ev2 ++ failTrail⟩
    | (Except.ok amendment_text, ev2) =>
      let evs1 := evs0 ++ ev1 ++ ev2
        ++ emit sink (Event.traceEmit "image_parsing_complete")
      match analyze_documents sink env.ctxCollab original_text amendment_text with
      | (Except.error e, ev3) => ⟨1, none, some e, evs1 ++ ev3 ++ failTrail⟩
      | (Except.ok ctx, ev3) =>
        let evs2 := evs1 ++ ev3 ++ emit sink (Event.traceEmit "agent_1_complete")
        match extract_changes env.jsonParse sink env.extrCollab ctx with
        | (Except.error e, ev4) => ⟨1, none, some e, evs2 ++ ev4 ++ failTrail⟩
        | (Except.ok out, ev4) =>
          ⟨0, some (to_json out args), none,
           evs2 ++ ev4 ++ emit sink (Event.traceEmit "agent_2_complete")
             ++ emit sink (Event.traceEmit "validation_complete")
             ++ emit sink (Event.scoreEmit "workflow_success" 1)⟩

/-- UTF-8 byte length of a string (Python `len(s.encode())`). -/
def utf8Len (s : String) : Nat :=
  s.data.foldl (fun n c => n + c.utf8Size) 0

/-- The calls to external pipeline stages among the events of a run. -/
def stageCalls (evs : List Event) : List Event :=
  evs.filter (fun e =>
    match e with
    | Event.visionCall _ => true
    | Event.ctxCall => true
    | Event.extractCall => true
    | _ => false)

/-- Outcome of the original-image vision stage; `parse_image` returns the
same outcome whatever the sink state, so the disabled-sink instance is
taken as the canonical one. -/
def stage1Result (env : Env) (args : Args) : Except PyErr String :=
  (parse_image false env.fs env.visionOriginal args.original_image "original").1

/-- Outcome of the amendment-image vision stage. -/
def stage2Result (env : Env) (args : Args) : Except PyErr String :=
  (parse_image false env.fs env.visionAmendment args.amendment_image "amendment").1

/-- Outcome of the extraction stage; the outcome of `extract_changes`
depends only on the collaborator response and the JSON parser, not on the
sink state or the contextualization value. -/
def extrResult (env : Env) : Except PyErr ContractChangeOutput :=
  (extract_changes env.jsonParse false env.extrCollab ⟨"", 0, 0, ⟨0, 0, 0⟩⟩).1

/-- A sample environment in which every collaborator call succeeds, used
as a concrete witness input. -/
def envAllOk : Env :=
  ⟨fun _ => some 1000, Except.ok "orig text", Except.ok "amend text",
   Except.ok ("analysis", ⟨1, 1, 2⟩), Except.ok ("json", ⟨1, 1, 2⟩),
   fun _ => Except.ok (JValue.jobj
     [("sections_changed", JValue.jarr [JValue.jstr "Section 3"]),
      ("topics_touched", JValue.jarr [JValue.jstr "Payments"]),
      ("summary_of_the_change",
       JValue.jstr "The payment terms were extended from 30 to 45 days in Section 3.")])⟩

/-- Sample command-line arguments used as a concrete witness input. -/
def argsSample : Args := ⟨"original.png", "amendment.png", "session-1", "contract-1"⟩

/-- The record the sample environment validates into. -/
def outAllOk : ContractChangeOutput :=
  ⟨["Section 3"], ["Payments"],
   "The payment terms were extended from 30 to 45 days in Section 3."⟩

/-- Failure modes of a `List[str]` field named by the claim C2: the key
is missing, or it holds a string array that is empty or contains a
whitespace-only element. -/
def listFieldViolated (kwargs : List (String × JValue)) (k : String) : Prop :=
  dlookup kwargs k = none ∨
  ∃ ss : List String, dlookup kwargs k = some (JValue.jarr (ss.map JValue.jstr)) ∧
    (ss = [] ∨ ∃ s ∈ ss, pyStrip s = "")

/-- Failure modes of `summary_of_the_change` named by the claim C2: the
key is missing, or the string has fewer than 50 characters after
trimming. -/
def summaryViolated (kwargs : List (String × JValue)) : Prop :=
  dlookup kwargs "summary_of_the_change" = none ∨
  ∃ s, dlookup kwargs "summary_of_the_change" = some (JValue.jstr s) ∧
    (pyStrip s).length < 50

theorem asStrings_map_jstr (ss : List String) :
    asStrings (ss.map JValue.jstr) = some ss := by
  induction ss with
  | nil => rfl
  | cons s rest ih => simp [asStrings, ih]

theorem length_dropWhile_le {α : Type} (p : α → Bool) (l : List α) :
    (l.dropWhile p).length ≤ l.length := by
  induction l with
  | nil => simp
  | cons a l ih =>
    by_cases h : p a
    · simp only [List.dropWhile_cons, h, if_true]
      exact Nat.le_succ_of_le ih
    · simp [List.dropWhile_cons, h]

theorem pyStrip_length_le (s : String) : (pyStrip s).length ≤ s.length := by
  show (((s.data.dropWhile pyIsSpace).reverse.dropWhile pyIsSpace).reverse).length
      ≤ s.data.length
  rw [List.length_reverse]
  calc ((s.data.dropWhile pyIsSpace).reverse.dropWhile pyIsSpace).length
      ≤ (s.data.dropWhile pyIsSpace).reverse.length := length_dropWhile_le _ _
    _ = (s.data.dropWhile pyIsSpace).length := List.length_reverse _
    _ ≤ s.data.length := length_dropWhile_le _ _

theorem checkList_ok_of_valid (fieldName elemMsg : String) (ss : List String)
    (h2 : ss ≠ []) (h3 : ∀ s ∈ ss, pyStrip s ≠ "") :
    checkList fieldName elemMsg (some (JValue.jarr (ss.map JValue.jstr)))
      = Except.ok (ss.map pyStrip) := by
  have hlen : ¬ ss.length < 1 := by
    cases ss with
    | nil => exact absurd rfl h2
    | cons a l => simp
  have hany : (ss.any fun s => pyStrip s == "") = false := by
    rw [List.any_eq_false]
    intro s hs
    simpa using h3 s hs
  simp [checkList, asStrings_map_jstr, hlen, hany]

theorem checkSummary_ok_of_valid (sum : String)
    (h8 : 50 ≤ (pyStrip sum).length) :
    checkSummary (some (JValue.jstr sum)) = Except.ok (pyStrip sum) := by
  have hr : ¬ sum.length < 50 := by
    have := pyStrip_length_le sum; omega
  have ht : ¬ (pyStrip sum).length < 50 := by omega
  simp [checkSummary, hr, ht]

theorem validate_ok_of_valid (kwargs : List (String × JValue))
    (ss ts : List String) (sum : String)
    (h1 : dlookup kwargs "sections_changed" = some (JValue.jarr (ss.map JValue.jstr)))
    (h2 : ss ≠ []) (h3 : ∀ s ∈ ss, pyStrip s ≠ "")
    (h4 : dlookup kwargs "topics_touched" = some (JValue.jarr (ts.map JValue.jstr)))
    (h5 : ts ≠ []) (h6 : ∀ t ∈ ts, pyStrip t ≠ "")
    (h7 : dlookup kwargs "summary_of_the_change" = some (JValue.jstr sum))
    (h8 : 50 ≤ (pyStrip sum).length) :
    validate kwargs = Except.ok ⟨ss.map pyStrip, ts.map pyStrip, pyStrip sum⟩ := by
  simp only [validate, h1, h4, h7,
    checkList_ok_of_valid _ _ ss h2 h3,
    checkList_ok_of_valid _ _ ts h5 h6,
    checkSummary_ok_of_valid sum h8]

/-- C1: a candidate map whose `sections_changed` and `topics_touched` are
non-empty string sequences with every element non-empty after trimming,
and whose `summary_of_the_change` has at least 50 characters after
trimming, validates successfully into the record equal to the input with
every list element and the summary trimmed. -/
theorem validate_roundtrip_valid (kwargs : List (String × JValue))
    (ss ts : List String) (sum : String)
    (h1 : dlookup kwargs "sections_changed" = some (JValue.jarr (ss.map JValue.jstr)))
    (h2 : ss ≠ []) (h3 : ∀ s ∈ ss, pyStrip s ≠ "")
    (h4 : dlookup kwargs "topics_touched" = some (JValue.jarr (ts.map JValue.jstr)))
    (h5 : ts ≠ []) (h6 : ∀ t ∈ ts, pyStrip t ≠ "")
    (h7 : dlookup kwargs "summary_of_the_change" = some (JValue.jstr sum))
    (h8 : 50 ≤ (pyStrip sum).length) :
    validate kwargs = Except.ok ⟨ss.map pyStrip, ts.map pyStrip, pyStrip sum⟩ :=
  validate_ok_of_valid kwargs ss ts sum h1 h2 h3 h4 h5 h6 h7 h8

/-- C1 witness: a concrete candidate with padded elements validates into
the trimmed record; the element `"  X  "` round-trips to `"X"`. -/
theorem validate_roundtrip_valid_witness :
    validate
      [("sections_changed", JValue.jarr [JValue.jstr "  X  "]),
       ("topics_touched", JValue.jarr [JValue.jstr " Payment Schedule "]),
       ("summary_of_the_change", JValue.jstr "  The payment terms were extended from 30 to 45 days in Section 3.  ")]
      = Except.ok ⟨List.map pyStrip ["  X  "], List.map pyStrip [" Payment Schedule "],
          pyStrip "  The payment terms were extended from 30 to 45 days in Section 3.  "⟩
    ∧ pyStrip "  X  " = "X" :=
  ⟨validate_roundtrip_valid _ ["  X  "] [" Payment Schedule "] _
      rfl (by decide) (by decide) rfl (by decide) (by decide) rfl (by decide),
   by decide⟩

theorem checkList_error_field (fieldName elemMsg : String) (v : Option JValue)
    (e : FieldErr) (h : checkList fieldName elemMsg v = Except.error e) :
    e.field = fieldName := by
  simp only [checkList] at h
  repeat' split at h
  all_goals first
    | (injection h with h2; subst h2; rfl)
    | simp at h

theorem checkSummary_error_field (v : Option JValue) (e : FieldErr)
    (h : checkSummary v = Except.error e) :
    e.field = "summary_of_the_change" := by
  simp only [checkSummary] at h
  repeat' split at h
  all_goals first
    | (injection h with h2; subst h2; rfl)
    | simp at h

theorem checkList_error_of_violated (k m : String)
    (kwargs : List (String × JValue)) (h : listFieldViolated kwargs k) :
    ∃ e, checkList k m (dlookup kwargs k) = Except.error e := by
  rcases h with hnone | ⟨ss, hsome, hbad⟩
  · rw [hnone]; exact ⟨_, rfl⟩
  · rw [hsome]
    rcases hbad with rfl | ⟨s, hs, hstrip⟩
    · exact ⟨⟨k, "List should have at least 1 item after validation, not 0"⟩,
        by simp [checkList, asStrings]⟩
    · have hany : (ss.any fun s => pyStrip s == "") = true := by
        rw [List.any_eq_true]
        exact ⟨s, hs, by simp [hstrip]⟩
      by_cases hlen : ss.length < 1
      · exact ⟨⟨k, "List should have at least 1 item after validation, not 0"⟩,
          by simp [checkList, asStrings_map_jstr, hlen]⟩
      · exact ⟨⟨k, m⟩, by simp [checkList, asStrings_map_jstr, hlen, hany]⟩

theorem checkSummary_error_of_violated (kwargs : List (String × JValue))
    (h : summaryViolated kwargs) :
    ∃ e, checkSummary (dlookup kwargs "summary_of_the_change") = Except.error e := by
  rcases h with hnone | ⟨s, hsome, hlt⟩
  · rw [hnone]; exact ⟨_, rfl⟩
  · rw [hsome]
    by_cases hraw : s.length < 50
    · exact ⟨⟨"summary_of_the_change", "String should have at least 50 characters"⟩,
        by simp [checkSummary, hraw]⟩
    · exact ⟨⟨"summary_of_the_change",
          "summary_of_the_change must be at least 50 characters long"⟩,
        by simp [checkSummary, hraw, hlt]⟩

/-- C2: a candidate map missing a required field, with an empty
`sections_changed` or `topics_touched`, with a whitespace-only element in
either list, or with a summary shorter than 50 characters after trimming,
fails validation with an error naming the offending field, and no
`ContractChangeOutput` is produced (construction is all-or-nothing). -/
theorem validate_rejects_invalid_naming_field (kwargs : List (String × JValue))
    (f : String)
    (h : (f = "sections_changed" ∧ listFieldViolated kwargs "sections_changed")
       ∨ (f = "topics_touched" ∧ listFieldViolated kwargs "topics_touched")
       ∨ (f = "summary_of_the_change" ∧ summaryViolated kwargs)) :
    (∃ errs, validate kwargs = Except.error errs ∧ f ∈ errs.map FieldErr.field)
    ∧ ∀ out, validate kwargs ≠ Except.ok out := by
  have key : ∃ errs, validate kwargs = Except.error errs ∧ f ∈ errs.map FieldErr.field := by
    rcases h with ⟨rfl, hv⟩ | ⟨rfl, hv⟩ | ⟨rfl, hv⟩
    · obtain ⟨e, he⟩ := checkList_error_of_violated "sections_changed"
        "Each section name must be non-empty" kwargs hv
      have hf := checkList_error_field _ _ _ _ he
      cases hr2 : checkList "topics_touched" "Each topic must be non-empty"
          (dlookup kwargs "topics_touched") <;>
        cases hr3 : checkSummary (dlookup kwargs "summary_of_the_change") <;>
        exact ⟨_, by simp only [validate]; rw [he, hr2, hr3], by simp [errsOf, hf]⟩
    · obtain ⟨e, he⟩ := checkList_error_of_violated "topics_touched"
        "Each topic must be non-empty" kwargs hv
      have hf := checkList_error_field _ _ _ _ he
      cases hr1 : checkList "sections_changed" "Each section name must be non-empty"
          (dlookup kwargs "sections_changed") <;>
        cases hr3 : checkSummary (dlookup kwargs "summary_of_the_change") <;>
        exact ⟨_, by simp only [validate]; rw [hr1, he, hr3], by simp [errsOf, hf]⟩
    · obtain ⟨e, he⟩ := checkSummary_error_of_violated kwargs hv
      have hf := checkSummary_error_field _ _ he
      cases hr1 : checkList "sections_changed" "Each section name must be non-empty"
          (dlookup kwargs "sections_changed") <;>
        cases hr2 : checkList "topics_touched" "Each topic must be non-empty"
          (dlookup kwargs "topics_touched") <;>
        exact ⟨_, by simp only [validate]; rw [hr1, hr2, he], by simp [errsOf, hf]⟩
  refine ⟨key, ?_⟩
  rcases key with ⟨errs, heq, -⟩
  intro out hok
  rw [heq] at hok
  simp at hok

/-- C2 witness: the empty candidate (all fields missing) is rejected with
an error naming `sections_changed`, and no record is produced. -/
theorem validate_rejects_invalid_naming_field_witness :
    ((∃ errs, validate [] = Except.error errs
        ∧ "sections_changed" ∈ errs.map FieldErr.field)
     ∧ ∀ out, validate ([] : List (String × JValue)) ≠ Except.ok out) :=
  validate_rejects_invalid_naming_field [] "sections_changed"
    (Or.inl ⟨rfl, Or.inl rfl⟩)

theorem dlookup_append_of_no_key (kwargs extras : List (String × JValue))
    (k : String) (h : ∀ kv ∈ extras, kv.1 ≠ k) :
    dlookup (kwargs ++ extras) k = dlookup kwargs k := by
  unfold dlookup
  rw [List.reverse_append]
  have hnone : extras.reverse.find? (fun kv => kv.1 == k) = none := by
    rw [List.find?_eq_none]
    intro kv hkv
    simpa using h kv (List.mem_reverse.mp hkv)
  rw [List.find?_append, hnone]
  simp

/-- C10: extra top-level keys beside the three required fields are
silently ignored: validation still succeeds with the record built from
the three fields alone, and the final serialized object carries exactly
the four documented keys, so the extras appear nowhere downstream. -/
theorem validate_drops_extra_keys (kwargs extras : List (String × JValue))
    (ss ts : List String) (sum : String) (args : Args)
    (hex : ∀ kv ∈ extras, kv.1 ≠ "sections_changed" ∧ kv.1 ≠ "topics_touched"
      ∧ kv.1 ≠ "summary_of_the_change")
    (h1 : dlookup kwargs "sections_changed" = some (JValue.jarr (ss.map JValue.jstr)))
    (h2 : ss ≠ []) (h3 : ∀ s ∈ ss, pyStrip s ≠ "")
    (h4 : dlookup kwargs "topics_touched" = some (JValue.jarr (ts.map JValue.jstr)))
    (h5 : ts ≠ []) (h6 : ∀ t ∈ ts, pyStrip t ≠ "")
    (h7 : dlookup kwargs "summary_of_the_change" = some (JValue.jstr sum))
    (h8 : 50 ≤ (pyStrip sum).length) :
    validate (kwargs ++ extras)
      = Except.ok ⟨ss.map pyStrip, ts.map pyStrip, pyStrip sum⟩
    ∧ topKeys (to_json ⟨ss.map pyStrip, ts.map pyStrip, pyStrip sum⟩ args)
      = ["sections_changed", "topics_touched", "summary_of_the_change", "metadata"] := by
  constructor
  · apply validate_ok_of_valid (kwargs ++ extras) ss ts sum _ h2 h3 _ h5 h6 _ h8
    · rw [dlookup_append_of_no_key _ _ _ (fun kv hkv => (hex kv hkv).1)]
      exact h1
    · rw [dlookup_append_of_no_key _ _ _ (fun kv hkv => (hex kv hkv).2.1)]
      exact h4
    · rw [dlookup_append_of_no_key _ _ _ (fun kv hkv => (hex kv hkv).2.2)]
      exact h7
  · rfl

/-- C10 witness: a candidate with an extra key `confidence` validates and
the extra key is absent from the final output keys. -/
theorem validate_drops_extra_keys_witness :
    validate
      ([("sections_changed", JValue.jarr [JValue.jstr "Section 3"]),
        ("topics_touched", JValue.jarr [JValue.jstr "Payments"]),
        ("summary_of_the_change", JValue.jstr "The payment terms were extended from 30 to 45 days in Section 3.")]
       ++ [("confidence", JValue.jnum 9)])
      = Except.ok ⟨List.map pyStrip ["Section 3"], List.map pyStrip ["Payments"],
          pyStrip "The payment terms were extended from 30 to 45 days in Section 3."⟩
    ∧ topKeys (to_json ⟨List.map pyStrip ["Section 3"], List.map pyStrip ["Payments"],
          pyStrip "The payment terms were extended from 30 to 45 days in Section 3."⟩
          ⟨"o.png", "a.png", "s1", "c1"⟩)
      = ["sections_changed", "topics_touched", "summary_of_the_change", "metadata"] :=
  validate_drops_extra_keys _ _ ["Section 3"] ["Payments"] _ ⟨"o.png", "a.png", "s1", "c1"⟩
    (by intro kv hkv; simp at hkv; simp [hkv])
    rfl (by decide) (by decide) rfl (by decide) (by decide) rfl (by decide)

theorem mem_emit (sink : Bool) (e e' : Event) :
    e ∈ emit sink e' ↔ sink = true ∧ e = e' := by
  cases sink <;> simp [emit]

/-- C4: when the collaborator text is not parseable as JSON, extraction
fails with the `MalformedResponse` error (the JSON-parse `ValueError`,
surfaced as the cause of the stage `RuntimeError`) and the schema
validator (`ContractChangeOutput` construction) is never invoked. -/
theorem extract_malformed_json_skips_validator
    (jp : String → Except String JValue) (sink : Bool) (text : String)
    (u : Usage) (ctx : ContextualizationResult) (m : String)
    (h : jp text = Except.error m) :
    (extract_changes jp sink (Except.ok (text, u)) ctx).1
      = Except.error (PyErr.runtimeError
          ("Extraction agent failed: " ++ jsonFailMsg m)
          (PyErr.valueError (jsonFailMsg m)))
    ∧ Event.validatorCall ∉ (extract_changes jp sink (Except.ok (text, u)) ctx).2 := by
  constructor
  · simp [extract_changes, h]
  · simp [extract_changes, h, mem_emit]

/-- C4 witness: a concrete non-JSON collaborator response fails with the
JSON-parse error and never reaches the validator. -/
theorem extract_malformed_json_skips_validator_witness :
    ((extract_changes (fun _ => Except.error "Expecting value: line 1 column 1")
        false (Except.ok ("not json", ⟨1, 1, 2⟩)) ⟨"a", 1, 1, ⟨1, 1, 2⟩⟩).1
      = Except.error (PyErr.runtimeError
          ("Extraction agent failed: " ++ jsonFailMsg "Expecting value: line 1 column 1")
          (PyErr.valueError (jsonFailMsg "Expecting value: line 1 column 1")))
    ∧ Event.validatorCall ∉ (extract_changes
        (fun _ => Except.error "Expecting value: line 1 column 1")
        false (Except.ok ("not json", ⟨1, 1, 2⟩)) ⟨"a", 1, 1, ⟨1, 1, 2⟩⟩).2) :=
  extract_malformed_json_skips_validator _ false "not json" _ _ _ rfl

/-- C7: an image path failing a precondition (missing file, unsupported
extension, oversized file, or empty file) makes `parse_image` fail with
the validation `ValueError` before anything happens: no event occurs, in
particular the vision collaborator is never invoked. -/
theorem parse_image_precondition_failfast (sink : Bool)
    (fs : String → Option Nat) (vr : Except String String) (p dt : String)
    (h : fs p = none
       ∨ (∃ n, fs p = some n
            ∧ (SUPPORTED_FORMATS.contains (pyLower (pathSuffix p))) = false)
       ∨ (∃ n, fs p = some n ∧ MAX_FILE_SIZE < n)
       ∨ fs p = some 0) :
    (∃ msg, (parse_image sink fs vr p dt).1
        = Except.error (PyErr.valueError ("Image validation failed: " ++ msg)))
    ∧ (parse_image sink fs vr p dt).2 = [] := by
  have hv : ∃ msg, validate_image fs p = some msg := by
    rcases h with h0 | ⟨n, hn, hfmt⟩ | ⟨n, hn, hbig⟩ | h0
    · exact ⟨"Image file not found: " ++ p, by simp [validate_image, h0]⟩
    · exact ⟨"Unsupported image format: " ++ pathSuffix p,
        by simp only [validate_image, hn]; rw [if_pos hfmt]⟩
    · by_cases hfmt : (SUPPORTED_FORMATS.contains (pyLower (pathSuffix p))) = false
      · exact ⟨"Unsupported image format: " ++ pathSuffix p,
          by simp only [validate_image, hn]; rw [if_pos hfmt]⟩
      · exact ⟨"Image file too large: " ++ toString n ++ " bytes",
          by simp only [validate_image, hn]; rw [if_neg hfmt, if_pos hbig]⟩
    · by_cases hfmt : (SUPPORTED_FORMATS.contains (pyLower (pathSuffix p))) = false
      · exact ⟨"Unsupported image format: " ++ pathSuffix p,
          by simp only [validate_image, h0]; rw [if_pos hfmt]⟩
      · exact ⟨"Image file is empty",
          by simp only [validate_image, h0]
             rw [if_neg hfmt, if_neg (Nat.not_lt_zero _)]
             simp⟩
  obtain ⟨msg, hmsg⟩ := hv
  exact ⟨⟨msg, by simp [parse_image, hmsg]⟩, by simp [parse_image, hmsg]⟩

/-- C7 witness: a missing file fails immediately with no collaborator
call. -/
theorem parse_image_precondition_failfast_witness :
    (∃ msg, (parse_image false (fun _ => none) (Except.ok "t") "x.png" "original").1
        = Except.error (PyErr.valueError ("Image validation failed: " ++ msg)))
    ∧ (parse_image false (fun _ => none) (Except.ok "t") "x.png" "original").2 = [] :=
  parse_image_precondition_failfast false _ _ "x.png" "original" (Or.inl rfl)

/-- C8: the error surfaced when the extraction collaborator call itself
fails carries an `apiError` cause (the spec's `StageFailure`), while the
error surfaced on unparseable content carries a `valueError` cause (the
spec's `MalformedResponse`); the two are never equal, so the caller can
tell the failure kinds apart. -/
theorem extraction_error_kinds_distinct
    (jp : String → Except String JValue) (sink : Bool)
    (ctx : ContextualizationResult) (msg text m : String) (u : Usage)
    (h : jp text = Except.error m) :
    (extract_changes jp sink (Except.error msg) ctx).1
      = Except.error (PyErr.runtimeError ("Extraction agent failed: " ++ msg)
          (PyErr.apiError msg))
    ∧ (extract_changes jp sink (Except.ok (text, u)) ctx).1
      = Except.error (PyErr.runtimeError ("Extraction agent failed: " ++ jsonFailMsg m)
          (PyErr.valueError (jsonFailMsg m)))
    ∧ ∀ a b c d : String,
        PyErr.runtimeError a (PyErr.apiError b)
          ≠ PyErr.runtimeError c (PyErr.valueError d) := by
  refine ⟨by simp [extract_changes], by simp [extract_changes, h], ?_⟩
  intro a b c d hcontra
  simp at hcontra

/-- C8 witness: a concrete network failure and a concrete parse failure
surface the two distinct error shapes. -/
theorem extraction_error_kinds_distinct_witness :
    ((extract_changes (fun _ => Except.error "Expecting value") false
        (Except.error "Connection error") ⟨"a", 1, 1, ⟨1, 1, 2⟩⟩).1
      = Except.error (PyErr.runtimeError
          ("Extraction agent failed: " ++ "Connection error")
          (PyErr.apiError "Connection error"))
    ∧ (extract_changes (fun _ => Except.error "Expecting value") false
        (Except.ok ("oops", ⟨1, 1, 2⟩)) ⟨"a", 1, 1, ⟨1, 1, 2⟩⟩).1
      = Except.error (PyErr.runtimeError
          ("Extraction agent failed: " ++ jsonFailMsg "Expecting value")
          (PyErr.valueError (jsonFailMsg "Expecting value")))
    ∧ ∀ a b c d : String,
        PyErr.runtimeError a (PyErr.apiError b)
          ≠ PyErr.runtimeError c (PyErr.valueError d)) :=
  extraction_error_kinds_distinct _ false ⟨"a", 1, 1, ⟨1, 1, 2⟩⟩
    "Connection error" "oops" "Expecting value" ⟨1, 1, 2⟩ rfl

/-- C9 counterexample: the contextualization result does not carry byte
lengths: for the input `"café"` (4 code points, 5 UTF-8 bytes) the
returned `original_length` is 4, not the byte length 5. -/
theorem ctx_byte_length_counterexample :
    (analyze_documents false (Except.ok ("a", ⟨1, 1, 2⟩)) "café" "x").1
      = Except.ok ⟨"a", 4, 1, ⟨1, 1, 2⟩⟩
    ∧ utf8Len "café" = 5 ∧ (4 : Nat) ≠ 5 :=
  ⟨rfl, by decide, by decide⟩

/-- C9 amended: the ContextualizationResult carries the character-count
(code point) lengths of both input documents — Python `len`, not UTF-8
byte lengths — alongside the analysis text and the token usage. -/
theorem ctx_carries_codepoint_lengths (sink : Bool) (analysis : String)
    (u : Usage) (original_text amendment_text : String) :
    (analyze_documents sink (Except.ok (analysis, u)) original_text amendment_text).1
      = Except.ok ⟨analysis, original_text.length, amendment_text.length, u⟩ := rfl

/-- C5: the values computed by a run do not depend on the availability of
the observability sink: exit code, serialized output and surfaced error
are identical with the sink enabled and disabled, for every environment
(two-run noninterference over sink availability; only the emitted trace
events differ). -/
theorem sink_noninterference (env : Env) (args : Args) :
    (runMain true env args).exitCode = (runMain false env args).exitCode
    ∧ (runMain true env args).output = (runMain false env args).output
    ∧ (runMain true env args).err = (runMain false env args).err := by
  cases hv1 : validate_image env.fs args.original_image with
  | some msg => simp [runMain, parse_image, hv1]
  | none =>
  cases hr1 : env.visionOriginal with
  | error m1 => simp [runMain, parse_image, hv1, hr1]
  | ok t1 =>
  cases hv2 : validate_image env.fs args.amendment_image with
  | some msg2 => simp [runMain, parse_image, hv1, hr1, hv2]
  | none =>
  cases hr2 : env.visionAmendment with
  | error m2 => simp [runMain, parse_image, hv1, hr1, hv2, hr2]
  | ok t2 =>
  cases hc : env.ctxCollab with
  | error mc =>
    simp [runMain, parse_image, analyze_documents, hv1, hr1, hv2, hr2, hc]
  | ok cu =>
  obtain ⟨analysis, cusage⟩ := cu
  cases he : env.extrCollab with
  | error me =>
    simp [runMain, parse_image, analyze_documents, extract_changes,
      hv1, hr1, hv2, hr2, hc, he]
  | ok eu =>
  obtain ⟨etext, eusage⟩ := eu
  cases hj : env.jsonParse etext with
  | error mj =>
    simp [runMain, parse_image, analyze_documents, extract_changes,
      hv1, hr1, hv2, hr2, hc, he, hj]
  | ok jv =>
  cases jv
  case jobj kvs =>
    cases hval : validate kvs <;>
      simp [runMain, parse_image, analyze_documents, extract_changes,
        hv1, hr1, hv2, hr2, hc, he, hj, hval]
  all_goals
    simp [runMain, parse_image, analyze_documents, extract_changes,
      hv1, hr1, hv2, hr2, hc, he, hj]

theorem checkSummary_ok_length (v : Option JValue) (c : String)
    (h : checkSummary v = Except.ok c) : 50 ≤ c.length := by
  simp only [checkSummary] at h
  repeat' split at h
  all_goals first
    | (injection h with h2; subst h2; omega)
    | simp at h

theorem validate_ok_summary_len (kvs : List (String × JValue))
    (out : ContractChangeOutput) (h : validate kvs = Except.ok out) :
    50 ≤ out.summary_of_the_change.length := by
  simp only [validate] at h
  split at h
  next a b c h1 h2 h3 =>
    injection h with h4
    subst h4
    exact checkSummary_ok_length _ _ h3
  next => simp at h

/-- C6: whenever a run produces an output object, it has exactly the four
top-level keys `sections_changed` (array of strings), `topics_touched`
(array of strings), `summary_of_the_change` (string of at least 50
characters) and `metadata` (object carrying the session id, the contract
id and the two source image paths), and no other key. -/
theorem final_output_exact_keys (sink : Bool) (env : Env) (args : Args)
    (j : JValue) (h : (runMain sink env args).output = some j) :
    ∃ (ss ts : List String) (sum : String),
      j = JValue.jobj [
        ("sections_changed", JValue.jarr (ss.map JValue.jstr)),
        ("topics_touched", JValue.jarr (ts.map JValue.jstr)),
        ("summary_of_the_change", JValue.jstr sum),
        ("metadata", JValue.jobj [
          ("session_id", JValue.jstr args.session_id),
          ("contract_id", JValue.jstr args.contract_id),
          ("original_image", JValue.jstr args.original_image),
          ("amendment_image", JValue.jstr args.amendment_image)])]
      ∧ topKeys j = ["sections_changed", "topics_touched",
          "summary_of_the_change", "metadata"]
      ∧ 50 ≤ sum.length := by
  cases hv1 : validate_image env.fs args.original_image with
  | some msg => simp [runMain, parse_image, hv1] at h
  | none =>
  cases hr1 : env.visionOriginal with
  | error m1 => simp [runMain, parse_image, hv1, hr1] at h
  | ok t1 =>
  cases hv2 : validate_image env.fs args.amendment_image with
  | some msg2 => simp [runMain, parse_image, hv1, hr1, hv2] at h
  | none =>
  cases hr2 : env.visionAmendment with
  | error m2 => simp [runMain, parse_image, hv1, hr1, hv2, hr2] at h
  | ok t2 =>
  cases hc : env.ctxCollab with
  | error mc =>
    simp [runMain, parse_image, analyze_documents, hv1, hr1, hv2, hr2, hc] at h
  | ok cu =>
  obtain ⟨analysis, cusage⟩ := cu
  cases he : env.extrCollab with
  | error me =>
    simp [runMain, parse_image, analyze_documents, extract_changes,
      hv1, hr1, hv2, hr2, hc, he] at h
  | ok eu =>
  obtain ⟨etext, eusage⟩ := eu
  cases hj : env.jsonParse etext with
  | error mj =>
    simp [runMain, parse_image, analyze_documents, extract_changes,
      hv1, hr1, hv2, hr2, hc, he, hj] at h
  | ok jv =>
  cases jv
  case jobj kvs =>
    cases hval : validate kvs with
    | error errs =>
      simp [runMain, parse_image, analyze_documents, extract_changes,
        hv1, hr1, hv2, hr2, hc, he, hj, hval] at h
    | ok out =>
      simp only [runMain, parse_image, analyze_documents, extract_changes,
        hv1, hr1, hv2, hr2, hc, he, hj, hval, Option.some.injEq] at h
      obtain ⟨a, b, c⟩ := out
      refine ⟨a, b, c, ?_, ?_, ?_⟩
      · rw [← h]; rfl
      · rw [← h]; rfl
      · exact validate_ok_summary_len _ _ hval
  all_goals
    simp [runMain, parse_image, analyze_documents, extract_changes,
      hv1, hr1, hv2, hr2, hc, he, hj] at h

/-- C6 witness: the all-success sample environment produces exactly the
documented four-key object. -/
theorem final_output_exact_keys_witness :
    ∃ (ss ts : List String) (sum : String),
      to_json outAllOk argsSample = JValue.jobj [
        ("sections_changed", JValue.jarr (ss.map JValue.jstr)),
        ("topics_touched", JValue.jarr (ts.map JValue.jstr)),
        ("summary_of_the_change", JValue.jstr sum),
        ("metadata", JValue.jobj [
          ("session_id", JValue.jstr argsSample.session_id),
          ("contract_id", JValue.jstr argsSample.contract_id),
          ("original_image", JValue.jstr argsSample.original_image),
          ("amendment_image", JValue.jstr argsSample.amendment_image)])]
      ∧ topKeys (to_json outAllOk argsSample) = ["sections_changed",
          "topics_touched", "summary_of_the_change", "metadata"]
      ∧ 50 ≤ sum.length :=
  final_output_exact_keys false envAllOk argsSample (to_json outAllOk argsSample) rfl

theorem stageCalls_append (l1 l2 : List Event) :
    stageCalls (l1 ++ l2) = stageCalls l1 ++ stageCalls l2 := by
  simp [stageCalls]

theorem stageCalls_emit_trace (sink : Bool) (n : String) :
    stageCalls (emit sink (Event.traceEmit n)) = [] := by
  cases sink <;> rfl

theorem stageCalls_emit_score (sink : Bool) (n : String) (v : Nat) :
    stageCalls (emit sink (Event.scoreEmit n v)) = [] := by
  cases sink <;> rfl

theorem stageCalls_vision (dt : String) :
    stageCalls [Event.visionCall dt] = [Event.visionCall dt] := rfl

theorem stageCalls_ctxCall : stageCalls [Event.ctxCall] = [Event.ctxCall] := rfl

theorem stageCalls_extractCall :
    stageCalls [Event.extractCall] = [Event.extractCall] := rfl

theorem stageCalls_validatorCall : stageCalls [Event.validatorCall] = [] := rfl

theorem stageCalls_nil : stageCalls [] = [] := rfl

theorem stageCalls_cons_vision (dt : String) (l : List Event) :
    stageCalls (Event.visionCall dt :: l) = Event.visionCall dt :: stageCalls l := rfl

theorem stageCalls_cons_ctx (l : List Event) :
    stageCalls (Event.ctxCall :: l) = Event.ctxCall :: stageCalls l := rfl

theorem stageCalls_cons_extract (l : List Event) :
    stageCalls (Event.extractCall :: l) = Event.extractCall :: stageCalls l := rfl

theorem stageCalls_cons_validator (l : List Event) :
    stageCalls (Event.validatorCall :: l) = stageCalls l := rfl

/-- C3: the orchestrator runs the stages in the fixed order
original-vision, amendment-vision, contextualize, extract: when a stage
fails, no later stage is invoked and the run ends with the single failure
outcome (exit code 1, no output, that stage's error surfaced); when all
succeed, the external stage calls happen exactly in the documented
order. -/
theorem orchestrator_order_and_failfast (sink : Bool) (env : Env) (args : Args) :
    (∀ e, stage1Result env args = Except.error e →
      (runMain sink env args).exitCode = 1
      ∧ (runMain sink env args).output = none
      ∧ (runMain sink env args).err = some e
      ∧ Event.visionCall "amendment" ∉ (runMain sink env args).events
      ∧ Event.ctxCall ∉ (runMain sink env args).events
      ∧ Event.extractCall ∉ (runMain sink env args).events)
    ∧ (∀ t1 e, stage1Result env args = Except.ok t1 →
        stage2Result env args = Except.error e →
      (runMain sink env args).exitCode = 1
      ∧ (runMain sink env args).output = none
      ∧ (runMain sink env args).err = some e
      ∧ Event.ctxCall ∉ (runMain sink env args).events
      ∧ Event.extractCall ∉ (runMain sink env args).events)
    ∧ (∀ t1 t2 m, stage1Result env args = Except.ok t1 →
        stage2Result env args = Except.ok t2 →
        env.ctxCollab = Except.error m →
      (runMain sink env args).exitCode = 1
      ∧ (runMain sink env args).output = none
      ∧ (runMain sink env args).err
          = some (PyErr.runtimeError ("Contextualization agent failed: " ++ m)
              (PyErr.apiError m))
      ∧ Event.extractCall ∉ (runMain sink env args).events)
    ∧ (∀ t1 t2 cu e, stage1Result env args = Except.ok t1 →
        stage2Result env args = Except.ok t2 →
        env.ctxCollab = Except.ok cu →
        extrResult env = Except.error e →
      (runMain sink env args).exitCode = 1
      ∧ (runMain sink env args).output = none
      ∧ (runMain sink env args).err = some e)
    ∧ (∀ t1 t2 cu out, stage1Result env args = Except.ok t1 →
        stage2Result env args = Except.ok t2 →
        env.ctxCollab = Except.ok cu →
        extrResult env = Except.ok out →
      (runMain sink env args).exitCode = 0
      ∧ (runMain sink env args).output = some (to_json out args)
      ∧ (runMain sink env args).err = none
      ∧ stageCalls (runMain sink env args).events
          = [Event.visionCall "original", Event.visionCall "amendment",
             Event.ctxCall, Event.extractCall]) := by
  cases hv1 : validate_image env.fs args.original_image with
  | some msg =>
    simp [stage1Result, stage2Result, extrResult, runMain, parse_image,
      analyze_documents, extract_changes, mem_emit, hv1]
  | none =>
  cases hr1 : env.visionOriginal with
  | error m1 =>
    simp [stage1Result, stage2Result, extrResult, runMain, parse_image,
      analyze_documents, extract_changes, mem_emit, hv1, hr1]
  | ok t1 =>
  cases hv2 : validate_image env.fs args.amendment_image with
  | some msg2 =>
    simp [stage1Result, stage2Result, extrResult, runMain, parse_image,
      analyze_documents, extract_changes, mem_emit, hv1, hr1, hv2]
  | none =>
  cases hr2 : env.visionAmendment with
  | error m2 =>
    simp [stage1Result, stage2Result, extrResult, runMain, parse_image,
      analyze_documents, extract_changes, mem_emit, hv1, hr1, hv2, hr2]
  | ok t2 =>
  cases hc : env.ctxCollab with
  | error mc =>
    simp [stage1Result, stage2Result, extrResult, runMain, parse_image,
      analyze_documents, extract_changes, mem_emit, hv1, hr1, hv2, hr2, hc]
  | ok cu =>
  obtain ⟨analysis, cusage⟩ := cu
  cases he : env.extrCollab with
  | error me =>
    simp [stage1Result, stage2Result, extrResult, runMain, parse_image,
      analyze_documents, extract_changes, mem_emit, hv1, hr1, hv2, hr2, hc, he]
  | ok eu =>
  obtain ⟨etext, eusage⟩ := eu
  cases hj : env.jsonParse etext with
  | error mj =>
    simp [stage1Result, stage2Result, extrResult, runMain, parse_image,
      analyze_documents, extract_changes, mem_emit, hv1, hr1, hv2, hr2, hc, he, hj]
  | ok jv =>
  cases jv
  case jobj kvs =>
    cases hval : validate kvs with
    | error errs =>
      simp [stage1Result, stage2Result, extrResult, runMain, parse_image,
        analyze_documents, extract_changes, mem_emit,
        hv1, hr1, hv2, hr2, hc, he, hj, hval]
    | ok out0 =>
      simp only [stage1Result, stage2Result, extrResult, runMain, parse_image,
        analyze_documents, extract_changes,
        hv1, hr1, hv2, hr2, hc, he, hj, hval]
      simp [mem_emit, stageCalls_append,
        stageCalls_emit_trace, stageCalls_emit_score, stageCalls_vision,
        stageCalls_ctxCall, stageCalls_extractCall, stageCalls_validatorCall,
        stageCalls_nil, stageCalls_cons_vision, stageCalls_cons_ctx,
        stageCalls_cons_extract, stageCalls_cons_validator]
      intro _ _ _ _ out _ _ _ _ hout
      rw [hout]
  all_goals
    simp [stage1Result, stage2Result, extrResult, runMain, parse_image,
      analyze_documents, extract_changes, mem_emit, hv1, hr1, hv2, hr2, hc, he, hj]

/-- C3 witness: in the all-success sample environment the run succeeds
and the stage calls happen exactly in the documented order. -/
theorem orchestrator_order_and_failfast_witness :
    (runMain false envAllOk argsSample).exitCode = 0
    ∧ (runMain false envAllOk argsSample).output
        = some (to_json outAllOk argsSample)
    ∧ (runMain false envAllOk argsSample).err = none
    ∧ stageCalls (runMain false envAllOk argsSample).events
        = [Event.visionCall "original", Event.visionCall "amendment",
           Event.ctxCall, Event.extractCall] :=
  (orchestrator_order_and_failfast false envAllOk argsSample).2.2.2.2
    "orig text" "amend text" ("analysis", ⟨1, 1, 2⟩) outAllOk rfl rfl rfl rfl

end ContractPipeline
